import Mathlib

/-
Verification of the nrfdfu utility (Nordic DFU upgrade tool) against its
natural-language specification.  The development shallowly embeds the C
sources: `main.c` (option handling, ZIP package access, the upgrade driver
loop) and `dfu_ble.c` (BLE bootloader entry, control/data characteristic
access, notification handling).  Pure helpers of external libraries that the
code calls (json-c's tokenizer, libzip lookup, blzlib MAC conversion) are
modelled by executable Lean functions, each documented at its definition.
Machine integers are modelled as `Nat` with explicit `% 256` where byte
overflow matters; fallible C functions returning NULL / negative codes are
modelled with `Option`.
-/

/-! ## JSON values, modelled from the external json-c library

`read_manifest` in `main.c` calls `json_tokener_parse` and
`json_object_object_get_ex` from json-c.  The model below implements the
subset of json-c behaviour those calls rely on: the default (non-strict)
tokenizer parses the first complete JSON value of the input and ignores any
trailing bytes; an input whose first value is incomplete yields NULL (`none`).
-/

inductive JsonVal where
  | str (s : List Char)
  | num (n : Int)
  | obj (fields : List (List Char × JsonVal))
  | arr (elems : List JsonVal)
  | boolean (b : Bool)
  | null

/-- Whitespace skipping of the json-c tokenizer. -/
def skipWs : List Char → List Char
  | c :: cs =>
    if c = ' ' ∨ c = '\n' ∨ c = '\t' ∨ c = '\r' then skipWs cs else c :: cs
  | [] => []

/-- Translation of a JSON escape character to the character it denotes. -/
def unescapeChar (c : Char) : Char :=
  if c = 'n' then '\n' else if c = 't' then '\t' else if c = 'r' then '\r' else c

/-- Body of a JSON string after the opening quote: characters up to the
closing quote, with backslash escapes.  Returns the string and the remaining
input; an input ending before the closing quote is incomplete (`none`). -/
def parseStrBody : List Char → Option (List Char × List Char)
  | [] => none
  | '\\' :: e :: rest => (parseStrBody rest).map (fun p => (unescapeChar e :: p.1, p.2))
  | '"' :: rest => some ([], rest)
  | c :: rest => (parseStrBody rest).map (fun p => (c :: p.1, p.2))

/-- Longest digit run at the head of the input. -/
def takeDigits : List Char → List Char × List Char
  | [] => ([], [])
  | c :: rest =>
    if c.isDigit then
      let p := takeDigits rest
      (c :: p.1, p.2)
    else ([], c :: rest)

/-- Numeric value of a digit run. -/
def digitsToNat : List Char → Nat
  | [] => 0
  | ds => ds.foldl (fun acc c => acc * 10 + (c.toNat - 48)) 0

mutual

/-- One JSON value at the head of the input (after optional whitespace),
with the remaining input.  `fuel` bounds the recursion depth; every recursive
call consumes at least one input character, so fuel `length + 8` is ample. -/
def parseValue : Nat → List Char → Option (JsonVal × List Char)
  | 0, _ => none
  | fuel + 1, cs =>
    match skipWs cs with
    | '"' :: rest => (parseStrBody rest).map (fun p => (JsonVal.str p.1, p.2))
    | '\x7b' :: rest =>
      match skipWs rest with
      | '\x7d' :: r2 => some (JsonVal.obj [], r2)
      | r2 => (parseFields fuel r2).map (fun p => (JsonVal.obj p.1, p.2))
    | '[' :: rest =>
      match skipWs rest with
      | ']' :: r2 => some (JsonVal.arr [], r2)
      | r2 => (parseElems fuel r2).map (fun p => (JsonVal.arr p.1, p.2))
    | 't' :: 'r' :: 'u' :: 'e' :: rest => some (JsonVal.boolean true, rest)
    | 'f' :: 'a' :: 'l' :: 's' :: 'e' :: rest => some (JsonVal.boolean false, rest)
    | 'n' :: 'u' :: 'l' :: 'l' :: rest => some (JsonVal.null, rest)
    | '-' :: rest =>
      match takeDigits rest with
      | ([], _) => none
      | (ds, r2) => some (JsonVal.num (-(digitsToNat ds : Int)), r2)
    | c :: rest =>
      if c.isDigit then
        match takeDigits (c :: rest) with
        | (ds, r2) => some (JsonVal.num (digitsToNat ds : Int), r2)
      else none
    | [] => none

/-- Members of a JSON object after the opening brace, for a non-empty member
list: `"key" : value` pairs separated by commas, ending at the closing
brace. -/
def parseFields : Nat → List Char → Option (List (List Char × JsonVal) × List Char)
  | 0, _ => none
  | fuel + 1, cs =>
    match skipWs cs with
    | '"' :: rest =>
      match parseStrBody rest with
      | none => none
      | some (key, r2) =>
        match skipWs r2 with
        | ':' :: r3 =>
          match parseValue fuel r3 with
          | none => none
          | some (v, r4) =>
            match skipWs r4 with
            | ',' :: r5 => (parseFields fuel r5).map (fun p => ((key, v) :: p.1, p.2))
            | '\x7d' :: r5 => some ([(key, v)], r5)
            | _ => none
        | _ => none
    | _ => none

/-- Elements of a JSON array after the opening bracket, for a non-empty
element list. -/
def parseElems : Nat → List Char → Option (List JsonVal × List Char)
  | 0, _ => none
  | fuel + 1, cs =>
    match parseValue fuel cs with
    | none => none
    | some (v, r) =>
      match skipWs r with
      | ',' :: r2 => (parseElems fuel r2).map (fun p => (v :: p.1, p.2))
      | ']' :: r2 => some ([v], r2)
      | _ => none

end

/-- Modelled from the external json-c library: `json_tokener_parse` returns
the first complete JSON value of the buffer (trailing bytes are ignored by
the default non-strict tokenizer) or NULL when no complete value is
present. -/
def json_tokener_parse (buf : List Char) : Option JsonVal :=
  (parseValue (buf.length + 8) buf).map Prod.fst

/-- Modelled from the external json-c library: `json_object_object_get_ex`
looks a key up in an object (json-c object insertion replaces an existing
key, so the last binding wins) and fails on non-objects. -/
def jsonGet (j : JsonVal) (key : List Char) : Option JsonVal :=
  match j with
  | JsonVal.obj fields => ((fields.filter (fun p => p.1 == key)).getLast?).map Prod.snd
  | _ => none

/-- Modelled from the external json-c library: `json_object_get_string` on a
string value yields that string.  (On other value kinds json-c yields a
serialized rendering — always a non-NULL pointer, like the result here; the
manifests exercised by the claims only ever hold string values.) -/
def jsonGetString : JsonVal → List Char
  | JsonVal.str s => s
  | _ => []

/-! ## ZIP package model

A ZIP archive is a finite list of named members with byte contents
(characters stand for bytes here, since the manifest is parsed as text).
`zip_fopen` / `zip_stat` of libzip find a member by name. -/

abbrev Zip := List (List Char × List Char)

/-- Modelled from the external libzip library: member lookup by name, as used
by both `zip_fopen` and `zip_stat` in `main.c`. -/
def zipFind (z : Zip) (name : List Char) : Option (List Char) :=
  (z.find? (fun e => e.1 == name)).map Prod.snd

/-- `zip_file_open` from `main.c`: `zip_stat` the member to learn its size,
then open it; NULL (`none`) when the archive has no such member.  The size
reported is the member's full length. -/
def zip_file_open (z : Zip) (name : List Char) : Option (List Char × Nat) :=
  (zipFind z name).map (fun c => (c, c.length))

def manifestName : List Char := ("manifest.json" : String).toList

def manifestKey : List Char := ("manifest" : String).toList

def applicationKey : List Char := ("application" : String).toList

def datFileKey : List Char := ("dat_file" : String).toList

def binFileKey : List Char := ("bin_file" : String).toList

/-- Core of `read_manifest` from `main.c`, given the content of
`manifest.json`: `zip_fread(zf, buf, sizeof(buf))` with `char buf[200]`
reads at most the first 200 bytes (`len <= 0` fails), the buffer is handed
to `json_tokener_parse`, and the `manifest.application.dat_file` /
`manifest.application.bin_file` strings are extracted; missing pieces leave
the output pointers NULL and fail.  (The C buffer is not NUL-terminated —
a latent defect; the model takes the read bytes as the exact parser
input.) -/
def readManifestContent (content : List Char) : Option (List Char × List Char) :=
  let buf := content.take 200
  if buf.length = 0 then none
  else
    match json_tokener_parse buf with
    | none => none
    | some j =>
      match (jsonGet j manifestKey).bind (fun o => jsonGet o applicationKey) with
      | none => none
      | some app =>
        match jsonGet app datFileKey, jsonGet app binFileKey with
        | some dv, some bv => some (jsonGetString dv, jsonGetString bv)
        | _, _ => none

/-- `read_manifest` from `main.c`: open `manifest.json` in the archive
(failing when absent) and extract the two member names from its content. -/
def read_manifest (z : Zip) : Option (List Char × List Char) :=
  (zipFind z manifestName).bind readManifestContent

/-! ## The upgrade driver, `main` from `main.c`

`main` opens the ZIP, reads the manifest, opens the two referenced members,
initializes the serial port and then drives the upgrade:

  - a `do { ret = dfu_ping(); if (!ret) sleep(1); } while (!ret);` loop,
  - `dfu_set_packet_receive_notification(0)`,
  - `dfu_get_serial_mtu()`,
  - `dfu_object_write_procedure(1, zf1, zs1)` for the init packet,
  - `dfu_object_write_procedure(2, zf2, zs2)` for the firmware,

then sets `ret = EXIT_SUCCESS` and returns `ret`.  The `dfu_*` functions live
in `dfu.c`, which is not among the sources; the model records each call as a
trace event and treats the outcome of `dfu_ping` as an oracle indexed by the
attempt number (modelled from the spec: a Ping either gets a response within
its timeout or not).  `EXIT_SUCCESS = 0` and `EXIT_FAILURE = 1`; a failing
`read_manifest` makes `main` return its `-1`. -/

inductive Ev where
  | ping (ok : Bool)
  | setPRN (n : Nat)
  | getMtu
  | objectWrite (ty : Nat) (size : Nat)
deriving DecidableEq, Repr

/-- Number of Ping attempts (successful or not) recorded in a trace. -/
def countPing (tr : List Ev) : Nat :=
  tr.countP (fun e => match e with | Ev.ping _ => true | _ => false)

/-- The Ping loop of `main`: attempt `dfu_ping`; on failure sleep one second
and try again, with no bound on the number of attempts.  The C loop may never
terminate, so the model takes a fuel bound: `none` means the loop is still
running after `fuel` attempts.  On success the trace lists one `Ev.ping`
event per attempt, the last one successful. -/
def pingTrace (ping : Nat → Bool) : Nat → Nat → Option (List Ev)
  | 0, _ => none
  | fuel + 1, k =>
    if ping k then some [Ev.ping true]
    else (pingTrace ping fuel (k + 1)).map (fun tr => Ev.ping false :: tr)

/-- Environment of one `main` run: the ZIP archive (`none` when `zip_open`
fails), whether `serial_init` succeeds, and the Ping oracle with the fuel
bound for the unbounded retry loop. -/
structure MainInput where
  zip : Option Zip
  serialOk : Bool
  ping : Nat → Bool
  pingFuel : Nat

/-- `main` from `main.c` as a function from its environment to the process
exit code and the trace of DFU calls issued.  `none` captures a run whose
Ping loop has not terminated within the fuel bound.  Note the exit paths:
a ZIP that fails to open returns the initial `EXIT_FAILURE`; a failing
`read_manifest` returns its `-1`; but once `ret` has been overwritten by
`read_manifest`'s success result `0`, the `goto exit` paths for a missing
member and for a failing `serial_init` return that `0`. -/
def mainRun (inp : MainInput) : Option (Int × List Ev) :=
  match inp.zip with
  | none => some (1, [])
  | some z =>
    match read_manifest z with
    | none => some (-1, [])
    | some (dat, bin) =>
      match zip_file_open z dat, zip_file_open z bin with
      | some (_, zs1), some (_, zs2) =>
        if inp.serialOk then
          match pingTrace inp.ping inp.pingFuel 0 with
          | none => none
          | some tr =>
            some (0, tr ++ [Ev.setPRN 0, Ev.getMtu,
                            Ev.objectWrite 1 zs1, Ev.objectWrite 2 zs2])
        else some (0, [])
      | _, _ => some (0, [])

/-! ## BLE bootloader entry and control channel, `dfu_ble.c`

Addresses are modelled as the list of their octets in display order (the
order they appear in the address string, most-significant octet first).
blzlib follows the bluez `bdaddr_t` convention in which the byte array holds
the octets reversed: index 0 is the last-printed, least-significant octet.
-/

def connectMaxTry : Nat := 3

/-- Modelled from the external blzlib library: `blz_string_to_mac_s` parses
an address string into a 6-byte array in bluez order, so the array lists the
display octets reversed (index 0 = least-significant octet). -/
def blz_string_to_mac_s (addr : List Nat) : List Nat := addr.reverse

/-- Modelled from the external blzlib library: `blz_mac_to_string_s` prints a
bluez-order byte array back as an address string (display order). -/
def blz_mac_to_string_s (mac : List Nat) : List Nat := mac.reverse

/-- `mac[0]++` from `ble_enter_dfu`: increment the first byte of the array,
an 8-bit cell, hence modulo 256. -/
def macIncrementFirst : List Nat → List Nat
  | [] => []
  | b :: rest => (b + 1) % 256 :: rest

/-- Address of DfuTarg computed by `ble_enter_dfu` (its comment: "connect to
DfuTarg: increase MAC address by one"): convert the address string to a byte
array, increment `mac[0]`, convert back. -/
def dfuTargAddress (addr : List Nat) : List Nat :=
  blz_mac_to_string_s (macIncrementFirst (blz_string_to_mac_s addr))

/-- The reconnect address exactly as the specification words it: "the
original address with the most-significant address byte incremented by one".
This definition follows the spec's words, to be compared with
`dfuTargAddress` from the source. -/
def specDfuTargAddress : List Nat → List Nat
  | [] => []
  | b :: rest => (b + 1) % 256 :: rest

/-- `buttonless_notify_handler` from `dfu_ble.c`: logs an "Unexpected
response" when the third byte of the notification differs from `0x01`, and
sets `buttonless_noti = true` unconditionally.  Returns the flag value
assigned and the logged byte, if any.  (The C code reads `data[2]` without a
length check; out-of-range reads are modelled as byte 0.) -/
def buttonless_notify_handler (data : List Nat) : Bool × Option Nat :=
  (true, if data.getD 2 0 ≠ 1 then some (data.getD 2 0) else none)

/-- Observable actions of `ble_enter_dfu` and the event loop. -/
inductive BAct where
  | connect (addr : List Nat)
  | sleepFive
  | indicateStart
  | writeButtonless (v : Nat)
  | waitNotif
  | logUnexpected (third : Nat)
  | disconnect
  | notifyStart
deriving DecidableEq, Repr

/-- Truth of an action being a `blz_connect` attempt. -/
def isConnectAct : BAct → Bool
  | BAct.connect _ => true
  | _ => false

/-- Environment of one `ble_enter_dfu` run: outcomes of the external blzlib
calls it makes, in program order.  `connectOk i` is the outcome of the i-th
`blz_connect` attempt to the original address; `notif` is the buttonless
notification delivered within the 10-second `blz_loop_timeout` window
(`none`: the wait times out). -/
structure BleEnv where
  initOk : Bool
  connectOk : Nat → Bool
  servOk : Bool
  hasButtonless : Bool
  hasDataChar : Bool
  hasCtrlChar : Bool
  indicateOk : Bool
  writeOk : Bool
  notif : Option (List Nat)
  targConnectOk : Bool
  targServOk : Bool
  targHasDataChar : Bool
  targHasCtrlChar : Bool
  notifyOk : Bool

/-- The connection loop of `ble_enter_dfu`:
`do { dev = blz_connect(...); if (dev == NULL) sleep(5); }
 while (dev == NULL && ++trynum < CONNECT_MAX_TRY);`
entered with `trynum = t` (the first call passes 0).  Returns the trace of
attempts (with the 5-second sleep after each failure), the final value of
`trynum`, and whether a connection was obtained.  The loop terminates
because `trynum` grows towards `CONNECT_MAX_TRY` on every failed attempt. -/
def connectPhase (ok : Nat → Bool) (addr : List Nat) (t : Nat) : List BAct × Nat × Bool :=
  if ok t then ([BAct.connect addr], t, true)
  else if h : t + 1 < connectMaxTry then
    let p := connectPhase ok addr (t + 1)
    (BAct.connect addr :: BAct.sleepFive :: p.1, p.2)
  else ([BAct.connect addr, BAct.sleepFive], t + 1, false)
termination_by connectMaxTry - t
decreasing_by simp [connectMaxTry] at h ⊢; omega

/-- Trace of the wait for the buttonless confirmation: `blz_loop_timeout`
runs until a notification arrives (handled by `buttonless_notify_handler`)
or 10 seconds elapse; the flag is not examined afterwards. -/
def buttonlessWaitActs (notif : Option (List Nat)) : List BAct :=
  match notif with
  | none => [BAct.waitNotif]
  | some d =>
    match (buttonless_notify_handler d).2 with
    | some t => [BAct.waitNotif, BAct.logUnexpected t]
    | none => [BAct.waitNotif]

/-- Code at the `dfutarg_found` label of `ble_enter_dfu`: start control
notifications on the control characteristic and return `true`, or `false`
when `blz_char_notify_start` fails. -/
def dfutarg_found (env : BleEnv) (tr : List BAct) : Bool × List BAct :=
  (env.notifyOk, tr ++ [BAct.notifyStart])

/-- Tail of the buttonless path of `ble_enter_dfu`: connect to DfuTarg, find
the DFU service there, look up the data/control characteristics, and fall
through to `dfutarg_found`; any failure returns `false`.  `tr1` is the trace
accumulated so far (it already ends with the DfuTarg connect attempt). -/
def dfuTargPhase (env : BleEnv) (tr1 : List BAct) : Bool × List BAct :=
  if env.targConnectOk = false then (false, tr1)
  else if env.targServOk = false then (false, tr1)
  else if (env.targHasDataChar && env.targHasCtrlChar) = false then (false, tr1)
  else dfutarg_found env tr1

/-- `ble_enter_dfu` from `dfu_ble.c` (the `BLE_SUPPORT` build): initialize
blzlib, connect with up to `CONNECT_MAX_TRY` attempts (`trynum >=
CONNECT_MAX_TRY` aborts), find the DFU service, then either (a) find the
buttonless characteristic, subscribe, write `0x01`, wait for the
notification, disconnect, reconnect to the incremented address and look the
control/data characteristics up there, or (b) when the buttonless
characteristic is absent, look the control/data characteristics up directly
and, if both exist, jump to `dfutarg_found`.  Either way it finally starts
control notifications.  Returns the C result and the trace of actions. -/
def ble_enter_dfu (env : BleEnv) (address : List Nat) : Bool × List BAct :=
  if env.initOk = false then (false, [])
  else
    let cp := connectPhase env.connectOk address 0
    if connectMaxTry ≤ cp.2.1 then (false, cp.1)
    else if env.servOk = false then (false, cp.1)
    else if env.hasButtonless = false then
      if env.hasDataChar && env.hasCtrlChar then dfutarg_found env cp.1
      else (false, cp.1)
    else
      if env.indicateOk = false then (false, cp.1 ++ [BAct.indicateStart])
      else if env.writeOk = false then
        (false, cp.1 ++ [BAct.indicateStart, BAct.writeButtonless 1])
      else
        dfuTargPhase env
          (cp.1 ++ [BAct.indicateStart, BAct.writeButtonless 1] ++
           buttonlessWaitActs env.notif ++
           [BAct.disconnect, BAct.connect (dfuTargAddress address)])

/-- State shared between `control_notify_handler` and `ble_read`: the
200-byte `recv_buf` and the `control_noti` flag. -/
structure CtrlState where
  recvBuf : List Nat
  controlNoti : Bool

/-- `control_notify_handler` from `dfu_ble.c`: `memcpy(recv_buf, data, len)`
overwrites the first `len` bytes of the buffer (the tail keeps its previous
content) and sets `control_noti = true`. -/
def control_notify_handler (st : CtrlState) (data : List Nat) : CtrlState :=
  { recvBuf := data ++ st.recvBuf.drop data.length, controlNoti := true }

/-- Modelled from the external blzlib library: `blz_loop_timeout(ctx, &flag,
timeout)` runs the event loop, dispatching incoming notifications to the
registered handler one at a time, until the flag becomes true or the timeout
elapses.  `events` lists the notifications delivered before the timeout
would elapse; the numeric timeout (10 000 000 µs in `ble_read`) only fixes
that window's length. -/
def blzLoopFlag (handler : CtrlState → List Nat → CtrlState)
    (flag : CtrlState → Bool) : CtrlState → List (List Nat) → CtrlState
  | st, [] => st
  | st, e :: es =>
    if flag st then st else blzLoopFlag handler flag (handler st e) es

/-- `ble_read` from `dfu_ble.c`: clear `control_noti`, run `blz_loop_timeout`
for at most 10 seconds, and return NULL when no notification arrived, else
the (pointer to the) receive buffer just filled by the handler. -/
def ble_read (st : CtrlState) (arrivals : List (List Nat)) :
    Option (List Nat) × CtrlState :=
  let st1 := blzLoopFlag control_notify_handler (fun s => s.controlNoti)
    { st with controlNoti := false } arrivals
  if st1.controlNoti = false then (none, st1) else (some st1.recvBuf, st1)

/-! ## Concrete example inputs

A typical Nordic DFU package manifest, plus variants exercising the claims.
Braces inside string literals are written with their hexadecimal escapes. -/

def datName : List Char := ("app.dat" : String).toList

def binName : List Char := ("app.bin" : String).toList

/-- Content of a well-formed 72-byte `manifest.json`. -/
def exManifest : List Char :=
  ("\x7b\"manifest\":\x7b\"application\":\x7b\"bin_file\":\"app.bin\",\"dat_file\":\"app.dat\"\x7d\x7d\x7d" : String).toList

/-- The same manifest followed by 150 newline bytes: 222 bytes in all, so it
does not fit in the 200-byte read buffer, yet its JSON value is complete
within the first 200 bytes. -/
def exManifestPadded : List Char := exManifest ++ List.replicate 150 '\n'

/-- A well-formed manifest whose JSON value itself spans more than 200
bytes: 150 space bytes separate the last member from the closing braces. -/
def exManifestCross : List Char :=
  ("\x7b\"manifest\":\x7b\"application\":\x7b\"bin_file\":\"app.bin\",\"dat_file\":\"app.dat\"" : String).toList
    ++ List.replicate 150 ' ' ++ ("\x7d\x7d\x7d" : String).toList

/-- A manifest whose `application` object lacks `dat_file`. -/
def exManifestNoDat : List Char :=
  ("\x7b\"manifest\":\x7b\"application\":\x7b\"bin_file\":\"app.bin\"\x7d\x7d\x7d" : String).toList

/-- Content that is not JSON at all. -/
def exNotJson : List Char := ("not json" : String).toList

/-- A complete well-formed package: manifest plus both members (init packet
2 bytes, firmware 3 bytes). -/
def exZip : Zip :=
  [(manifestName, exManifest),
   (datName, ("ab" : String).toList),
   (binName, ("xyz" : String).toList)]

/-- A package whose init packet member is empty. -/
def exZipEmptyDat : Zip :=
  [(manifestName, exManifest),
   (datName, []),
   (binName, ("xyz" : String).toList)]

/-- A package whose manifest references `app.dat`, but the member is absent
from the archive. -/
def exZipMissingDat : Zip :=
  [(manifestName, exManifest),
   (binName, ("xy" : String).toList)]

/-- A package without `manifest.json`. -/
def exZipNoManifest : Zip :=
  [(datName, ("ab" : String).toList),
   (binName, ("xy" : String).toList)]

/-- A package whose manifest is not valid JSON. -/
def exZipBadJson : Zip :=
  [(manifestName, exNotJson),
   (datName, ("ab" : String).toList),
   (binName, ("xy" : String).toList)]

/-- A package whose manifest lacks the `dat_file` path. -/
def exZipNoDatPath : Zip :=
  [(manifestName, exManifestNoDat),
   (datName, ("ab" : String).toList),
   (binName, ("xy" : String).toList)]

/-- A package whose oversized manifest parses within the first 200 bytes. -/
def exZipPadded : Zip :=
  [(manifestName, exManifestPadded),
   (datName, ("ab" : String).toList),
   (binName, ("xyz" : String).toList)]

/-- A Ping oracle that fails on the first three attempts and succeeds on the
fourth. -/
def exPingLate (k : Nat) : Bool := decide (3 ≤ k)

/-- Driver input for the late-Ping run over the well-formed package. -/
def exInputPingLate : MainInput :=
  { zip := some exZip, serialOk := true, ping := exPingLate, pingFuel := 6 }

/-- Driver input for a first-Ping-succeeds run over the well-formed
package. -/
def exInputPingFirst : MainInput :=
  { zip := some exZip, serialOk := true, ping := fun _ => true, pingFuel := 2 }

/-- Driver input over the package with the empty init member. -/
def exInputEmptyDat : MainInput :=
  { zip := some exZipEmptyDat, serialOk := true, ping := fun _ => true, pingFuel := 2 }

/-- Driver input over the package with the absent init member. -/
def exInputMissingDat : MainInput :=
  { zip := some exZipMissingDat, serialOk := true, ping := fun _ => true, pingFuel := 3 }

/-- Driver inputs for the three properly failing manifest cases. -/
def exInputNoManifest : MainInput :=
  { zip := some exZipNoManifest, serialOk := true, ping := fun _ => true, pingFuel := 3 }

def exInputBadJson : MainInput :=
  { zip := some exZipBadJson, serialOk := true, ping := fun _ => true, pingFuel := 3 }

def exInputNoDatPath : MainInput :=
  { zip := some exZipNoDatPath, serialOk := true, ping := fun _ => true, pingFuel := 3 }

/-- Example device address, as display octets (most-significant first). -/
def exAddr : List Nat := [192, 1, 2, 3, 4, 5]

/-- BLE environment: everything present and functioning, with the buttonless
confirmation notification carrying `0x02` — not `0x01` — as its third
byte. -/
def exEnvBadThirdByte : BleEnv :=
  { initOk := true, connectOk := fun _ => true, servOk := true,
    hasButtonless := true, hasDataChar := false, hasCtrlChar := false,
    indicateOk := true, writeOk := true, notif := some [96, 4, 2],
    targConnectOk := true, targServOk := true, targHasDataChar := true,
    targHasCtrlChar := true, notifyOk := true }

/-- BLE environment: no buttonless characteristic, but the DFU control and
data characteristics are directly discoverable. -/
def exEnvDfuMode : BleEnv :=
  { initOk := true, connectOk := fun _ => true, servOk := true,
    hasButtonless := false, hasDataChar := true, hasCtrlChar := true,
    indicateOk := true, writeOk := true, notif := none,
    targConnectOk := true, targServOk := true, targHasDataChar := true,
    targHasCtrlChar := true, notifyOk := true }

/-- BLE environment in which every connection attempt fails. -/
def exEnvNoConnect : BleEnv :=
  { initOk := true, connectOk := fun _ => false, servOk := true,
    hasButtonless := true, hasDataChar := true, hasCtrlChar := true,
    indicateOk := true, writeOk := true, notif := none,
    targConnectOk := true, targServOk := true, targHasDataChar := true,
    targHasCtrlChar := true, notifyOk := true }

/-- BLE environment for the successful buttonless path with a confirming
notification. -/
def exEnvButtonless : BleEnv :=
  { initOk := true, connectOk := fun _ => true, servOk := true,
    hasButtonless := true, hasDataChar := false, hasCtrlChar := false,
    indicateOk := true, writeOk := true, notif := some [96, 4, 1],
    targConnectOk := true, targServOk := true, targHasDataChar := true,
    targHasCtrlChar := true, notifyOk := true }

/-! ## Theorems -/

/-- A Ping oracle that is false everywhere keeps the loop running: no fuel
bound makes it return. -/
theorem pingTrace_always_false (ping : Nat → Bool) (h : ∀ j, ping j = false) :
    ∀ fuel k, pingTrace ping fuel k = none := by
  intro fuel
  induction fuel with
  | zero => intro k; rfl
  | succ m ih => intro k; simp [pingTrace, h, ih]

/-- A terminating Ping loop always records some number of failed attempts
followed by exactly one successful one. -/
theorem pingTrace_shape (ping : Nat → Bool) :
    ∀ fuel k tr, pingTrace ping fuel k = some tr →
      ∃ n, tr = List.replicate n (Ev.ping false) ++ [Ev.ping true] := by
  intro fuel
  induction fuel with
  | zero => intro k tr h; simp [pingTrace] at h
  | succ m ih =>
    intro k tr h
    by_cases hk : ping k
    · refine ⟨0, ?_⟩
      simp [pingTrace, hk] at h
      simp [h.symm]
    · simp [pingTrace, hk] at h
      obtain ⟨tr2, h1, h2⟩ := h
      obtain ⟨n, hn⟩ := ih (k + 1) tr2 h1
      exact ⟨n + 1, by simp [← h2, hn, List.replicate_succ]⟩

/-- When the first Ping success is at attempt `n` (counting from the loop's
starting attempt `k`), the loop performs exactly `n + 1` attempts. -/
theorem pingTrace_first_success (ping : Nat → Bool) :
    ∀ n fuel k, (∀ j, j < n → ping (k + j) = false) → ping (k + n) = true →
      n < fuel →
      pingTrace ping fuel k =
        some (List.replicate n (Ev.ping false) ++ [Ev.ping true]) := by
  intro n
  induction n with
  | zero =>
    intro fuel k hlt hn hf
    match fuel, hf with
    | m + 1, _ =>
      have : ping k = true := by simpa using hn
      simp [pingTrace, this]
  | succ n ih =>
    intro fuel k hlt hn hf
    match fuel, hf with
    | m + 1, hf =>
      have hk : ping k = false := by simpa using hlt 0 (Nat.succ_pos n)
      have hrec : pingTrace ping m (k + 1) =
          some (List.replicate n (Ev.ping false) ++ [Ev.ping true]) := by
        apply ih
        · intro j hj
          have := hlt (j + 1) (by omega)
          simpa [Nat.add_assoc, Nat.add_comm 1 j] using this
        · have h2 : k + 1 + n = k + (n + 1) := by omega
          rw [h2]; exact hn
        · omega
      simp [pingTrace, hk, hrec, List.replicate_succ]

set_option maxRecDepth 40000 in
/-- Claim C1, counterexample: the claim says the client sends Ping at most 3
times and that exhausting the attempts fails the run.  In the run below the
bootloader answers only the fourth Ping: `main` sends a fourth Ping (more
than 3) and the run proceeds to a successful upgrade instead of failing. -/
theorem C1_counterexample :
    mainRun exInputPingLate =
      some (0, [Ev.ping false, Ev.ping false, Ev.ping false, Ev.ping true,
                Ev.setPRN 0, Ev.getMtu, Ev.objectWrite 1 2, Ev.objectWrite 2 3]) ∧
    countPing [Ev.ping false, Ev.ping false, Ev.ping false, Ev.ping true,
               Ev.setPRN 0, Ev.getMtu, Ev.objectWrite 1 2, Ev.objectWrite 2 3] = 4 := by
  decide

/-- Claim C1, amended: during probing the client retries Ping with no upper
bound on the attempt count, sleeping one second after each failure; the
first success advances to the next phase (after `n` failures, `n + 1` Pings
are sent), and if Ping never succeeds the loop never terminates — the run
does not fail. -/
theorem C1_ping_retries_unbounded (ping : Nat → Bool) (fuel n : Nat) :
    ((∀ j, ping j = false) → pingTrace ping fuel 0 = none) ∧
    ((∀ j, j < n → ping j = false) → ping n = true → n < fuel →
      pingTrace ping fuel 0 =
        some (List.replicate n (Ev.ping false) ++ [Ev.ping true])) := by
  constructor
  · intro h; exact pingTrace_always_false ping h fuel 0
  · intro h1 h2 h3
    exact pingTrace_first_success ping n fuel 0 (by simpa using h1)
      (by simpa using h2) h3

/-- Claim C1, witness for the amended theorem, at an always-failing oracle
and at one whose first success is the third attempt. -/
theorem C1_ping_retries_unbounded_witness :
    pingTrace (fun _ => false) 7 0 = none ∧
    pingTrace (fun k => decide (2 ≤ k)) 7 0 =
      some (List.replicate 2 (Ev.ping false) ++ [Ev.ping true]) := by
  constructor
  · exact (C1_ping_retries_unbounded (fun _ => false) 7 2).1 (fun j => rfl)
  · exact (C1_ping_retries_unbounded (fun k => decide (2 ≤ k)) 7 2).2
      (by decide) (by decide) (by decide)

/-- Claim C2: in every run that reaches the protocol phase and whose Ping
loop terminates, the client issues — after the single successful Ping —
`SetPRN(0)`, then the MTU query, then exactly one transfer call for the init
payload as object type 1 and then exactly one for the firmware payload as
object type 2, in that order, and exits successfully. -/
theorem C2_upgrade_order (inp : MainInput) (z : Zip) (dat bin c1 c2 : List Char)
    (tr : List Ev)
    (hz : inp.zip = some z)
    (hm : read_manifest z = some (dat, bin))
    (h1 : zipFind z dat = some c1)
    (h2 : zipFind z bin = some c2)
    (hs : inp.serialOk = true)
    (hp : pingTrace inp.ping inp.pingFuel 0 = some tr) :
    mainRun inp =
      some (0, tr ++ [Ev.setPRN 0, Ev.getMtu,
                      Ev.objectWrite 1 c1.length, Ev.objectWrite 2 c2.length]) ∧
    ∃ n, tr = List.replicate n (Ev.ping false) ++ [Ev.ping true] := by
  constructor
  · simp [mainRun, hz, hm, zip_file_open, h1, h2, hs, hp]
  · exact pingTrace_shape inp.ping inp.pingFuel 0 tr hp

set_option maxRecDepth 40000 in
/-- Claim C2, witness: the ordering theorem evaluated on the well-formed
example package with a first-attempt Ping success. -/
theorem C2_upgrade_order_witness :
    mainRun exInputPingFirst =
      some (0, [Ev.ping true] ++ [Ev.setPRN 0, Ev.getMtu,
                Ev.objectWrite 1 2, Ev.objectWrite 2 3]) :=
  (C2_upgrade_order exInputPingFirst exZip datName binName
    (("ab" : String).toList) (("xyz" : String).toList) [Ev.ping true]
    rfl (by decide) (by decide) (by decide) rfl (by decide)).1

set_option maxRecDepth 40000 in
/-- Claim C5, counterexample: the claim says a package with a zero-length
init payload is rejected with a fatal `PackageError` before any transfer and
that no object operation is issued for it.  On the package whose `app.dat`
member is empty, `main` instead proceeds, invokes the object-transfer
procedure for object type 1 with size 0, transfers the firmware, and exits
with `EXIT_SUCCESS`. -/
theorem C5_counterexample :
    mainRun exInputEmptyDat =
      some (0, [Ev.ping true, Ev.setPRN 0, Ev.getMtu,
                Ev.objectWrite 1 0, Ev.objectWrite 2 3]) := by
  decide

/-- Claim C5, amended: a package whose init payload has length zero is not
rejected — `main` performs no size check on the opened members: the
object-transfer procedure for object type 1 is invoked with size 0, the
firmware transfer follows, and the run exits successfully. -/
theorem C5_empty_init_not_rejected (inp : MainInput) (z : Zip)
    (dat bin c2 : List Char) (tr : List Ev)
    (hz : inp.zip = some z)
    (hm : read_manifest z = some (dat, bin))
    (h1 : zipFind z dat = some [])
    (h2 : zipFind z bin = some c2)
    (hs : inp.serialOk = true)
    (hp : pingTrace inp.ping inp.pingFuel 0 = some tr) :
    mainRun inp =
      some (0, tr ++ [Ev.setPRN 0, Ev.getMtu,
                      Ev.objectWrite 1 0, Ev.objectWrite 2 c2.length]) := by
  have : mainRun inp =
      some (0, tr ++ [Ev.setPRN 0, Ev.getMtu,
                      Ev.objectWrite 1 (List.length ([] : List Char)),
                      Ev.objectWrite 2 c2.length]) := by
    simp [mainRun, hz, hm, zip_file_open, h1, h2, hs, hp]
  simpa using this

set_option maxRecDepth 40000 in
/-- Claim C5, witness for the amended theorem, on the example package with
the empty init member. -/
theorem C5_empty_init_not_rejected_witness :
    mainRun exInputEmptyDat =
      some (0, [Ev.ping true] ++ [Ev.setPRN 0, Ev.getMtu,
                Ev.objectWrite 1 0, Ev.objectWrite 2 3]) :=
  C5_empty_init_not_rejected exInputEmptyDat exZipEmptyDat datName binName
    (("xyz" : String).toList) [Ev.ping true]
    rfl (by decide) (by decide) (by decide) rfl (by decide)

set_option maxRecDepth 40000 in
/-- Claim C6: a missing manifest, a manifest that is not valid JSON, and a
manifest lacking `dat_file` all make `main` return −1 (a nonzero exit
status) with no DFU operation issued, as the claim says; but when a
referenced member file is absent from the archive, `main` exits with status
0 (`EXIT_SUCCESS`) — `ret` still holds `read_manifest`'s success result 0 at
the `goto exit` — even though it issued no DFU operation and logged an
error.  The code contradicts the claimed (and clearly intended) failure
status in that fourth case. -/
theorem C6_missing_member_exit_status :
    mainRun exInputMissingDat = some (0, []) ∧
    mainRun exInputNoManifest = some (-1, []) ∧
    mainRun exInputBadJson = some (-1, []) ∧
    mainRun exInputNoDatPath = some (-1, []) := by
  decide

set_option maxRecDepth 40000 in
/-- Claim C9, counterexample: the claim says every package whose
`manifest.json` does not fit within 200 bytes is rejected.  The padded
manifest below is 222 bytes long, yet `read_manifest` accepts it, because
its JSON value is complete within the first 200 bytes and the tokenizer
ignores the truncated trailing padding. -/
theorem C9_counterexample :
    200 < exManifestPadded.length ∧
    read_manifest exZipPadded = some (datName, binName) := by
  decide

set_option maxRecDepth 40000 in
/-- Claim C9, amended: manifest parsing reads at most 200 bytes of
`manifest.json` — the outcome of `read_manifest` depends only on the first
200 bytes.  A manifest whose JSON value does not complete within those 200
bytes fails to parse and the package is rejected; but a manifest longer than
200 bytes whose JSON value completes within the first 200 bytes (trailing
whitespace) is accepted. -/
theorem C9_manifest_truncation :
    (∀ content : List Char,
      readManifestContent content = readManifestContent (content.take 200)) ∧
    readManifestContent exManifestCross = none ∧
    200 < exManifestPadded.length ∧
    readManifestContent exManifestPadded = some (datName, binName) := by
  refine ⟨fun content => ?_, by decide, by decide, by decide⟩
  simp [readManifestContent, List.take_take]

/-- Closed form of the connection loop entered at `trynum = 0`: it performs
one, two or three `blz_connect` attempts, stopping at the first success, and
gives up with `trynum = 3` after three failures. -/
theorem connectPhase_three (ok : Nat → Bool) (addr : List Nat) :
    connectPhase ok addr 0 =
      if ok 0 then ([BAct.connect addr], 0, true)
      else if ok 1 then
        ([BAct.connect addr, BAct.sleepFive, BAct.connect addr], 1, true)
      else if ok 2 then
        ([BAct.connect addr, BAct.sleepFive, BAct.connect addr, BAct.sleepFive,
          BAct.connect addr], 2, true)
      else
        ([BAct.connect addr, BAct.sleepFive, BAct.connect addr, BAct.sleepFive,
          BAct.connect addr, BAct.sleepFive], 3, false) := by
  by_cases h0 : ok 0 <;> by_cases h1 : ok 1 <;> by_cases h2 : ok 2 <;>
    simp [connectPhase, connectMaxTry, h0, h1, h2]

/-- The DfuTarg phase only ever appends to the trace it is given. -/
theorem dfuTargPhase_trace (env : BleEnv) (tr : List BAct) :
    ∃ rest, (dfuTargPhase env tr).2 = tr ++ rest := by
  unfold dfuTargPhase dfutarg_found
  split
  · exact ⟨[], by simp⟩
  · split
    · exact ⟨[], by simp⟩
    · split
      · exact ⟨[], by simp⟩
      · exact ⟨[BAct.notifyStart], rfl⟩

/-- Claim C10: `ble_enter_dfu` makes at most `CONNECT_MAX_TRY = 3` initial
connection attempts (the loop is a total function, hence always terminates),
sleeps 5 seconds after each failure, and after three consecutive failures
returns `false` with a trace holding nothing but the three attempts and
sleeps — in particular no DFU characteristic access. -/
theorem C10_connect_bounded (env : BleEnv) (addr : List Nat)
    (h0 : env.initOk = true)
    (hf0 : env.connectOk 0 = false) (hf1 : env.connectOk 1 = false)
    (hf2 : env.connectOk 2 = false) :
    ble_enter_dfu env addr =
      (false, [BAct.connect addr, BAct.sleepFive, BAct.connect addr,
               BAct.sleepFive, BAct.connect addr, BAct.sleepFive]) ∧
    ∀ ok : Nat → Bool,
      (connectPhase ok addr 0).1.countP isConnectAct ≤ connectMaxTry := by
  constructor
  · simp [ble_enter_dfu, connectPhase_three, h0, hf0, hf1, hf2, connectMaxTry]
  · intro ok
    by_cases g0 : ok 0 <;> by_cases g1 : ok 1 <;> by_cases g2 : ok 2 <;>
      simp [connectPhase_three, g0, g1, g2, isConnectAct, connectMaxTry,
            List.countP_cons, List.countP_nil]

/-- Claim C10, witness: the all-attempts-fail run evaluated concretely. -/
theorem C10_connect_bounded_witness :
    ble_enter_dfu exEnvNoConnect exAddr =
      (false, [BAct.connect exAddr, BAct.sleepFive, BAct.connect exAddr,
               BAct.sleepFive, BAct.connect exAddr, BAct.sleepFive]) ∧
    (connectPhase (fun _ => false) exAddr 0).1.countP isConnectAct ≤ connectMaxTry :=
  ⟨(C10_connect_bounded exEnvNoConnect exAddr rfl rfl rfl rfl).1,
   (C10_connect_bounded exEnvNoConnect exAddr rfl rfl rfl rfl).2 (fun _ => false)⟩

/-- Claim C8: when the buttonless characteristic is absent but the DFU data
and control characteristics are directly discoverable (and control
notifications start), `ble_enter_dfu` succeeds without any buttonless write,
without disconnecting or reconnecting (every connect attempt targets the
original address), and starts control notifications. -/
theorem C8_direct_dfu_mode (env : BleEnv) (addr : List Nat)
    (h0 : env.initOk = true)
    (hc : (connectPhase env.connectOk addr 0).2.2 = true)
    (hs : env.servOk = true) (hb : env.hasButtonless = false)
    (hd : env.hasDataChar = true) (hctl : env.hasCtrlChar = true)
    (hn : env.notifyOk = true) :
    (ble_enter_dfu env addr).1 = true ∧
    (∀ v, BAct.writeButtonless v ∉ (ble_enter_dfu env addr).2) ∧
    BAct.disconnect ∉ (ble_enter_dfu env addr).2 ∧
    (∀ a, BAct.connect a ∈ (ble_enter_dfu env addr).2 → a = addr) ∧
    BAct.notifyStart ∈ (ble_enter_dfu env addr).2 := by
  by_cases g0 : env.connectOk 0 <;> by_cases g1 : env.connectOk 1 <;>
    by_cases g2 : env.connectOk 2 <;>
    simp [connectPhase_three, g0, g1, g2, connectMaxTry] at hc <;>
    simp [ble_enter_dfu, dfutarg_found, connectPhase_three, g0, g1, g2,
          h0, hs, hb, hd, hctl, hn, connectMaxTry]

/-- Claim C8, witness: the already-in-DFU-mode environment evaluated
concretely. -/
theorem C8_direct_dfu_mode_witness :
    (ble_enter_dfu exEnvDfuMode exAddr).1 = true ∧
    (∀ v, BAct.writeButtonless v ∉ (ble_enter_dfu exEnvDfuMode exAddr).2) ∧
    BAct.disconnect ∉ (ble_enter_dfu exEnvDfuMode exAddr).2 ∧
    (∀ a, BAct.connect a ∈ (ble_enter_dfu exEnvDfuMode exAddr).2 → a = exAddr) ∧
    BAct.notifyStart ∈ (ble_enter_dfu exEnvDfuMode exAddr).2 :=
  C8_direct_dfu_mode exEnvDfuMode exAddr rfl
    (by simp [connectPhase_three, exEnvDfuMode]) rfl rfl rfl rfl rfl

/-- A first-attempt connection success gives the one-attempt trace. -/
theorem connectPhase_first_ok (ok : Nat → Bool) (addr : List Nat) (h : ok 0 = true) :
    connectPhase ok addr 0 = ([BAct.connect addr], 0, true) := by
  simp [connectPhase_three, h]

set_option maxRecDepth 40000 in
/-- Claim C3, counterexample: the claim says a notification whose third byte
differs from `0x01` does not satisfy the wait.  In the run below the
notification's third byte is `0x02`: the handler still sets the flag, the
wait ends, the client logs the unexpected byte, disconnects and proceeds to
DfuTarg — entry even succeeds. -/
theorem C3_counterexample :
    ble_enter_dfu exEnvBadThirdByte exAddr =
      (true, [BAct.connect exAddr, BAct.indicateStart, BAct.writeButtonless 1,
              BAct.waitNotif, BAct.logUnexpected 2, BAct.disconnect,
              BAct.connect [192, 1, 2, 3, 4, 6], BAct.notifyStart]) := by
  have h := connectPhase_first_ok (fun _ => true) [192, 1, 2, 3, 4, 5] rfl
  simp [ble_enter_dfu, exEnvBadThirdByte, exAddr, h, connectMaxTry,
        buttonlessWaitActs, buttonless_notify_handler, dfuTargPhase,
        dfutarg_found, dfuTargAddress, blz_string_to_mac_s,
        blz_mac_to_string_s, macIncrementFirst]

/-- Claim C3, amended: after writing `0x01` the client waits (up to 10 s)
for any notification on the buttonless characteristic; the handler marks the
wait satisfied for every notification, logging an "Unexpected response" when
the third byte differs from `0x01`, and the client then disconnects and
proceeds to the DfuTarg reconnect regardless of the byte's value. -/
theorem C3_any_notification_ends_wait (env : BleEnv) (addr d : List Nat)
    (h0 : env.initOk = true) (hc : env.connectOk 0 = true)
    (hs : env.servOk = true) (hb : env.hasButtonless = true)
    (hi : env.indicateOk = true) (hw : env.writeOk = true)
    (hn : env.notif = some d) :
    (buttonless_notify_handler d).1 = true ∧
    ∃ rest, (ble_enter_dfu env addr).2 =
      [BAct.connect addr, BAct.indicateStart, BAct.writeButtonless 1,
       BAct.waitNotif] ++
      (if d.getD 2 0 ≠ 1 then [BAct.logUnexpected (d.getD 2 0)] else []) ++
      ([BAct.disconnect, BAct.connect (dfuTargAddress addr)] ++ rest) := by
  refine ⟨rfl, ?_⟩
  have hacts : buttonlessWaitActs env.notif =
      [BAct.waitNotif] ++
        (if d.getD 2 0 ≠ 1 then [BAct.logUnexpected (d.getD 2 0)] else []) := by
    simp only [buttonlessWaitActs, hn, buttonless_notify_handler]
    generalize d.getD 2 0 = t
    by_cases h3 : t = 1 <;> simp [h3]
  have hmain : (ble_enter_dfu env addr).2 =
      (dfuTargPhase env
        ([BAct.connect addr] ++ [BAct.indicateStart, BAct.writeButtonless 1] ++
         buttonlessWaitActs env.notif ++
         [BAct.disconnect, BAct.connect (dfuTargAddress addr)])).2 := by
    simp [ble_enter_dfu, connectPhase_three, hc, h0, hs, hb, hi, hw, connectMaxTry]
  obtain ⟨rest, hrest⟩ := dfuTargPhase_trace env
    ([BAct.connect addr] ++ [BAct.indicateStart, BAct.writeButtonless 1] ++
     buttonlessWaitActs env.notif ++
     [BAct.disconnect, BAct.connect (dfuTargAddress addr)])
  refine ⟨rest, ?_⟩
  rw [hmain, hrest, hacts]
  simp

/-- Claim C3, witness for the amended theorem, at the notification whose
third byte is `0x02`. -/
theorem C3_any_notification_ends_wait_witness :
    (buttonless_notify_handler [96, 4, 2]).1 = true ∧
    ∃ rest, (ble_enter_dfu exEnvBadThirdByte exAddr).2 =
      [BAct.connect exAddr, BAct.indicateStart, BAct.writeButtonless 1,
       BAct.waitNotif] ++
      (if ([96, 4, 2] : List Nat).getD 2 0 ≠ 1
        then [BAct.logUnexpected (([96, 4, 2] : List Nat).getD 2 0)] else []) ++
      ([BAct.disconnect, BAct.connect (dfuTargAddress exAddr)] ++ rest) :=
  C3_any_notification_ends_wait exEnvBadThirdByte exAddr [96, 4, 2]
    rfl rfl rfl rfl rfl rfl rfl

/-- Claim C4, counterexample: for the address `C0:01:02:03:04:05` the code
reconnects to `C0:01:02:03:04:06` (last display octet, the least-significant
byte, incremented — `mac[0]` in bluez byte order), not to the address with
the most-significant byte incremented (`C1:01:02:03:04:05`) that the claim
describes. -/
theorem C4_counterexample :
    dfuTargAddress exAddr = [192, 1, 2, 3, 4, 6] ∧
    specDfuTargAddress exAddr = [193, 1, 2, 3, 4, 5] ∧
    dfuTargAddress exAddr ≠ specDfuTargAddress exAddr := by
  decide

/-- Claim C4, amended: after triggering buttonless entry and disconnecting,
the client reconnects to the address obtained by incrementing the address's
least-significant (last display) byte by one modulo 256 — the address plus
one, per the code's own comment and Nordic's convention — and then locates
the DFU characteristics there. -/
theorem C4_reconnect_last_byte (env : BleEnv) (pre : List Nat) (b : Nat)
    (h0 : env.initOk = true) (hc : env.connectOk 0 = true)
    (hs : env.servOk = true) (hb : env.hasButtonless = true)
    (hi : env.indicateOk = true) (hw : env.writeOk = true) :
    dfuTargAddress (pre ++ [b]) = pre ++ [(b + 1) % 256] ∧
    BAct.connect (pre ++ [(b + 1) % 256]) ∈ (ble_enter_dfu env (pre ++ [b])).2 := by
  have haddr : dfuTargAddress (pre ++ [b]) = pre ++ [(b + 1) % 256] := by
    simp [dfuTargAddress, blz_string_to_mac_s, blz_mac_to_string_s,
          macIncrementFirst]
  refine ⟨haddr, ?_⟩
  have hmain : (ble_enter_dfu env (pre ++ [b])).2 =
      (dfuTargPhase env
        ([BAct.connect (pre ++ [b])] ++
         [BAct.indicateStart, BAct.writeButtonless 1] ++
         buttonlessWaitActs env.notif ++
         [BAct.disconnect, BAct.connect (dfuTargAddress (pre ++ [b]))])).2 := by
    simp [ble_enter_dfu, connectPhase_three, hc, h0, hs, hb, hi, hw, connectMaxTry]
  obtain ⟨rest, hrest⟩ := dfuTargPhase_trace env
    ([BAct.connect (pre ++ [b])] ++
     [BAct.indicateStart, BAct.writeButtonless 1] ++
     buttonlessWaitActs env.notif ++
     [BAct.disconnect, BAct.connect (dfuTargAddress (pre ++ [b]))])
  rw [hmain, hrest, haddr]
  simp

/-- Claim C4, witness for the amended theorem, at `C0:01:02:03:04:05`. -/
theorem C4_reconnect_last_byte_witness :
    dfuTargAddress ([192, 1, 2, 3, 4] ++ [5]) = [192, 1, 2, 3, 4] ++ [(5 + 1) % 256] ∧
    BAct.connect ([192, 1, 2, 3, 4] ++ [(5 + 1) % 256]) ∈
      (ble_enter_dfu exEnvButtonless ([192, 1, 2, 3, 4] ++ [5])).2 :=
  C4_reconnect_last_byte exEnvButtonless [192, 1, 2, 3, 4] 5 rfl rfl rfl rfl rfl rfl

/-- The event loop returns immediately once the completion flag holds. -/
theorem blzLoopFlag_of_flag (handler : CtrlState → List Nat → CtrlState)
    (flag : CtrlState → Bool) (st : CtrlState) (es : List (List Nat))
    (hf : flag st = true) : blzLoopFlag handler flag st es = st := by
  cases es <;> simp [blzLoopFlag, hf]

/-- Claim C7: `ble_read` blocks until one notification arrives or the
10-second timeout elapses — when no notification arrives within the window
it returns NULL (no response value), and when one does it returns the
receive buffer just rewritten by the handler, whose leading bytes are
exactly the received notification. -/
theorem C7_read_control (st : CtrlState) (a : List Nat) (rest : List (List Nat)) :
    (ble_read st []).1 = none ∧
    (ble_read st (a :: rest)).1 = some (a ++ st.recvBuf.drop a.length) ∧
    (a ++ st.recvBuf.drop a.length).take a.length = a := by
  refine ⟨rfl, ?_, by simp⟩
  have h1 : blzLoopFlag control_notify_handler (fun s => s.controlNoti)
      { recvBuf := a ++ st.recvBuf.drop a.length, controlNoti := true } rest =
      { recvBuf := a ++ st.recvBuf.drop a.length, controlNoti := true } :=
    blzLoopFlag_of_flag _ _ _ rest rfl
  simp [ble_read, blzLoopFlag, control_notify_handler, h1]
